import Mathlib

/-!
# Verification of the cycle-based budget aggregation engine (src/YAET.js)

Shallow embedding of the core logic of the expense tracker: frequency
normalization (`calculateCycleBudget`), cycle window computation
(`startOfCycle`, the trend chart's windows), ledger filtering, the summary
aggregation, and the category sanitization step.  Amounts are modelled as
rationals (JS numbers on the in-range inputs of this program behave as exact
decimals), timestamps as calendar date-times, and JS objects as Lean
structures.  A field that JS may leave `undefined` or parse as `NaN` is
modelled as an `Option`.
-/

set_option autoImplicit false

namespace YAET

/-! ## Calendar dates (the JS `Date` values used by the core) -/

/-- A JS `Date` value, decomposed into calendar fields.  `month` is 0-based
as in JS (`0` = January).  Seconds and milliseconds never matter to the core
(all constructed dates are at midnight and comparisons in the claims are
date-granular), so the model keeps year, month, day, hour and minute. -/
structure JDate where
  year : Int
  month : Int
  day : Int
  hour : Int
  minute : Int
deriving DecidableEq, Repr

/-- Gregorian leap-year rule, as implemented by the JS `Date` calendar. -/
def isLeapYear (y : Int) : Bool :=
  y % 4 = 0 && (y % 100 != 0 || y % 400 = 0)

/-- Number of days of month `m` (0-based, assumed already normalized to
`0..11`) of year `y`. -/
def daysInMonth (y m : Int) : Int :=
  if m = 1 then (if isLeapYear y then 29 else 28)
  else if m = 3 ∨ m = 5 ∨ m = 8 ∨ m = 10 then 30
  else 31

/-- JS `Date` field normalization for the argument ranges this program
produces: the month may be any integer (it rolls the year), and the day may
be `0` (rolls back to the last day of the previous month, used by
`new Date(y, m + 1, 0)`) or exceed the month length by at most a month
(a single forward cascade, used by `setMonth` keeping a day of `1..31`).
The time fields are carried unchanged. -/
def normDateTime (y m d hh mm : Int) : JDate :=
  let t := y * 12 + m
  let y1 := t / 12
  let m1 := t % 12
  if d < 1 then
    let t2 := t - 1
    ⟨t2 / 12, t2 % 12, d + daysInMonth (t2 / 12) (t2 % 12), hh, mm⟩
  else if daysInMonth y1 m1 < d then
    let t2 := t + 1
    ⟨t2 / 12, t2 % 12, d - daysInMonth y1 m1, hh, mm⟩
  else
    ⟨y1, m1, d, hh, mm⟩

/-- JS `new Date(y, m, d)`: midnight of the (normalized) given calendar day. -/
def jsDate3 (y m d : Int) : JDate := normDateTime y m d 0 0

/-- JS `date.setMonth(k)`: replace the month field by `k` and renormalize,
keeping the day-of-month and the time of day. -/
def jsSetMonth (dt : JDate) (k : Int) : JDate :=
  normDateTime dt.year k dt.day dt.hour dt.minute

/-- JS `date.setDate(d)`: replace the day-of-month by `d` and renormalize. -/
def jsSetDate (dt : JDate) (d : Int) : JDate :=
  normDateTime dt.year dt.month d dt.hour dt.minute

/-- Comparison `a <= b` on JS `Date`s compares epoch milliseconds; on calendar fields
this is the lexicographic order. -/
def dateLe (a b : JDate) : Bool :=
  if a.year = b.year then
    if a.month = b.month then
      if a.day = b.day then
        if a.hour = b.hour then decide (a.minute ≤ b.minute)
        else decide (a.hour < b.hour)
      else decide (a.day < b.day)
    else decide (a.month < b.month)
  else decide (a.year < b.year)

/-- Absolute month index of a date (`year * 12 + month`). -/
def monthIdx (dt : JDate) : Int := dt.year * 12 + dt.month

/-- A `JDate` whose fields describe an actual calendar instant (month in
`0..11`, day within the month, time of day in range). -/
def ValidDate (dt : JDate) : Prop :=
  0 ≤ dt.month ∧ dt.month < 12 ∧ 1 ≤ dt.day ∧ dt.day ≤ daysInMonth dt.year dt.month ∧
    0 ≤ dt.hour ∧ dt.hour < 24 ∧ 0 ≤ dt.minute ∧ dt.minute < 60

instance (dt : JDate) : Decidable (ValidDate dt) := by
  unfold ValidDate; infer_instance

/-- Function `startOfCycle(cycleMonths)` from src/YAET.js, with the wall-clock `now`
made an explicit argument:
`const date = new Date(now.getFullYear(), now.getMonth(), 1);`
`date.setMonth(now.getMonth() - (cycleMonths - 1)); date.setDate(1);`. -/
def startOfCycle (now : JDate) (cycleMonths : Int) : JDate :=
  jsSetDate (jsSetMonth (jsDate3 now.year now.month 1) (now.month - (cycleMonths - 1))) 1

/-! Reference definitions for the Cycle Window Calculator, following the
words of spec §4.2. -/

/-- Modelled from the spec: truncate `now` to the first day of its month at
midnight. -/
def truncToMonthStart (now : JDate) : JDate :=
  ⟨now.year, now.month, 1, 0, 0⟩

/-- Modelled from the spec: step a first-of-month date back by `k` whole
calendar months. -/
def stepBackMonths (dt : JDate) (k : Int) : JDate :=
  let t := monthIdx dt - k
  ⟨t / 12, t % 12, 1, 0, 0⟩

/-- Modelled from the spec: shift a date back by `k` calendar months
(calendar date arithmetic keeping the day-of-month, with JS `Date`
overflow normalization when the day exceeds the target month's length). -/
def shiftBackMonths (dt : JDate) (k : Int) : JDate :=
  normDateTime dt.year (dt.month - k) dt.day 0 0

/-! ## Frequency Normalizer -/

/-- The `AVG_DAYS_PER_MONTH` constant from src/YAET.js. -/
def AVG_DAYS_PER_MONTH : ℚ := 30.4375

/-- JS `parseFloat(x) || 0`: an absent or non-numeric value (parsed to
`NaN`, modelled as `none`) is coerced to `0`; a parsed `0` stays `0`. -/
def orZero (x : Option ℚ) : ℚ :=
  match x with
  | none => 0
  | some v => if v = 0 then 0 else v

/-- Function `calculateCycleBudget(baseLimit, baseFrequency, cycleMonths)` from
src/YAET.js.  `baseLimit` is `Option ℚ` so that absent / `NaN` inputs are
representable; `cycleMonths` is a natural number (the data model's
positive-integer cycle length). -/
def calculateCycleBudget (baseLimit : Option ℚ) (baseFrequency : String)
    (cycleMonths : ℕ) : ℚ :=
  let limit := orZero baseLimit
  if limit ≤ 0 then 0
  else if baseFrequency = "daily" then limit * cycleMonths * AVG_DAYS_PER_MONTH
  else if baseFrequency = "monthly" then limit * cycleMonths
  else if baseFrequency = "bimonthly" then limit * ((cycleMonths : ℚ) / 2)
  else limit * cycleMonths

/-- Modelled from the spec (§4.1, for the refinement claim C1): the piecewise
reference definition of `cycleAmount`, written from the spec's words —
`0` when the parsed limit is non-positive (absent / `NaN` coerced to `0`);
`monthly`: `baseLimit * cycleMonths`; `bimonthly`: `baseLimit *
(cycleMonths / 2)`; `daily`: `baseLimit * cycleMonths * 30.4375`; any
unknown or unset frequency treated as `monthly`. -/
def cycleAmountSpec (baseLimit : Option ℚ) (baseFrequency : String)
    (cycleMonths : ℕ) : ℚ :=
  let limit := orZero baseLimit
  if limit ≤ 0 then 0
  else if baseFrequency = "monthly" then limit * cycleMonths
  else if baseFrequency = "bimonthly" then limit * ((cycleMonths : ℚ) / 2)
  else if baseFrequency = "daily" then limit * cycleMonths * (30.4375 : ℚ)
  else limit * cycleMonths

/-! ## Data model -/

/-- A sanitized category record as held in the `categories` React state
(after the listener's normalization): `baseLimit` is numeric, and
`baseFrequency` is a (possibly unknown) frequency code string. -/
structure Category where
  id : String
  name : String
  baseLimit : ℚ
  baseFrequency : String
  color : Option String
  icon : Option String
deriving DecidableEq, Repr

/-- A transaction record from the `expenses` collection.  `type` is
`"expense"` or `"budget"` (income). -/
structure Tx where
  id : String
  amount : ℚ
  type : String
  categoryId : String
  source : String
  timestamp : JDate
deriving DecidableEq, Repr

/-- The per-user settings record. -/
structure SettingsRec where
  currencyCode : String
  cycleMonths : ℕ
deriving DecidableEq, Repr

/-- A category document as loaded from the store, before sanitization:
`baseLimit` / the deprecated `budgetLimit` may be absent or non-numeric
(`none`), and `baseFrequency` may be absent. -/
structure RawCategory where
  id : String
  name : String
  baseLimit : Option ℚ
  budgetLimit : Option ℚ
  baseFrequency : Option String
  color : Option String
  icon : Option String
deriving DecidableEq, Repr

/-- JS `parseFloat(x) || y` for a numeric field: absent / `NaN` (`none`)
and `0` are falsy and fall through to `y`. -/
def orNum (x : Option ℚ) (y : ℚ) : ℚ :=
  match x with
  | none => y
  | some v => if v = 0 then y else v

/-- JS `x || y` for a string field: absent (`none`) and the empty string
are falsy and fall through to `y`. -/
def orStr (x : Option String) (y : String) : String :=
  match x with
  | none => y
  | some s => if s = "" then y else s

/-- The sanitization step of the categories listener (src/YAET.js, the
`sanitizedCats` map): `baseLimit: parseFloat(cat.baseLimit) ||
parseFloat(cat.budgetLimit) || 0` and
`baseFrequency: cat.baseFrequency || 'monthly'`. -/
def sanitizeCategory (c : RawCategory) : Category :=
  { id := c.id
    name := c.name
    baseLimit := orNum c.baseLimit (orNum c.budgetLimit 0)
    baseFrequency := orStr c.baseFrequency "monthly"
    color := c.color
    icon := c.icon }

/-- The `COLORS` palette from src/YAET.js. -/
def COLORS : List String :=
  ["#673AB7", "#03A9F4", "#009688", "#FF9800", "#F44336",
   "#E91E63", "#9C27B0", "#3F51B5", "#00BCD4", "#4CAF50"]

/-! ## Transaction Ledger View and Aggregation Engine -/

/-- Function `filterData(data, startDate)` from the `cycleExpenses` memo:
keeps items with `item.timestamp >= startDate` (no upper bound). -/
def filterData (data : List Tx) (startDate : JDate) : List Tx :=
  data.filter (fun item => dateLe startDate item.timestamp)

/-- Fallback `settings.cycleMonths || 1` (the defensive fallback applied by both
memos before any cycle computation). -/
def jsCycleMonths (s : SettingsRec) : ℕ :=
  if s.cycleMonths = 0 then 1 else s.cycleMonths

/-- Selection `expenses.filter(e => e.type === 'expense')` narrowed to the current
cycle window. -/
def cycleExpensesOf (expenses : List Tx) (currentStart : JDate) : List Tx :=
  filterData (expenses.filter (fun e => e.type == "expense")) currentStart

/-- Selection `expenses.filter(e => e.type === 'budget')` narrowed to the current
cycle window. -/
def cycleBudgetsOf (expenses : List Tx) (currentStart : JDate) : List Tx :=
  filterData (expenses.filter (fun e => e.type == "budget")) currentStart

/-- Value `currentCycleStart` as computed by the memo: `startOfCycle(settings.cycleMonths || 1)`,
with the wall-clock `now` explicit. -/
def currentCycleStartOf (s : SettingsRec) (now : JDate) : JDate :=
  startOfCycle now (jsCycleMonths s)

/-- One element of `summary.chartData`. -/
structure Row where
  name : String
  value : ℚ
  color : String
  id : String
  budgetLimit : ℚ
  baseFrequency : String
  baseLimit : ℚ
deriving DecidableEq, Repr

/-- The `expenseByCategory` reduce from the summary memo, with the resulting
JS object modelled as a total lookup function (`acc[categoryId] || 0` reads
`0` for an absent key): the summed `amount` of the cycle expenses carrying
the given `categoryId`. -/
def expenseByCategoryOf (cycleExpenses : List Tx) (categoryId : String) : ℚ :=
  ((cycleExpenses.filter (fun e => e.categoryId == categoryId)).map Tx.amount).sum

/-- The row built for one category by the `chartData` map (src/YAET.js):
`value` is the category's cycle spend, `budgetLimit` its computed cycle
limit. -/
def mkRow (cycleMonths : ℕ) (ebc : String → ℚ) (index : ℕ) (cat : Category) : Row :=
  { name := cat.name
    value := ebc cat.id
    color := orStr cat.color (COLORS.getD (index % COLORS.length) "")
    id := cat.id
    budgetLimit := calculateCycleBudget (some cat.baseLimit) cat.baseFrequency cycleMonths
    baseFrequency := cat.baseFrequency
    baseLimit := orZero (some cat.baseLimit) }

/-- Field `summary.chartData`: one row per category, filtered to
`item.value > 0 || item.budgetLimit > 0`. -/
def chartDataOf (categories : List Category) (cycleExpenses : List Tx)
    (cycleMonths : ℕ) : List Row :=
  (categories.enum.map
      (fun p => mkRow cycleMonths (expenseByCategoryOf cycleExpenses) p.1 p.2)).filter
    (fun item => decide (0 < item.value) || decide (0 < item.budgetLimit))

/-- The record returned by the `summary` memo. -/
structure SummaryRec where
  totalBudgetLimit : ℚ
  totalActualBudget : ℚ
  totalExpenses : ℚ
  remaining : ℚ
  expenseByCategory : String → ℚ
  chartData : List Row

/-- The `summary` memo from src/YAET.js, with the wall-clock `now` an
explicit argument.  The `cycleExpenses` / `cycleBudgets` memo is inlined
(its `cycleMonths || 1` and `startOfCycle` computation is identical). -/
def summary (categories : List Category) (expenses : List Tx)
    (settings : SettingsRec) (now : JDate) : SummaryRec :=
  let cycleMonths := jsCycleMonths settings
  let currentStart := currentCycleStartOf settings now
  let cycleExpenses := cycleExpensesOf expenses currentStart
  let cycleBudgets := cycleBudgetsOf expenses currentStart
  let totalBudgetLimit := categories.foldl
    (fun sum cat => sum + calculateCycleBudget (some cat.baseLimit) cat.baseFrequency cycleMonths) 0
  let totalActualBudget := cycleBudgets.foldl (fun sum entry => sum + entry.amount) 0
  let totalExpenses := cycleExpenses.foldl (fun sum entry => sum + entry.amount) 0
  { totalBudgetLimit := totalBudgetLimit
    totalActualBudget := totalActualBudget
    totalExpenses := totalExpenses
    remaining := totalBudgetLimit - totalExpenses
    expenseByCategory := expenseByCategoryOf cycleExpenses
    chartData := chartDataOf categories cycleExpenses cycleMonths }

/-- Flag `isOverActualBudget` from `OverviewTab`:
`totalExpenses > totalActualBudget && totalActualBudget > 0`. -/
def isOverActualBudget (categories : List Category) (expenses : List Tx)
    (settings : SettingsRec) (now : JDate) : Bool :=
  let s := summary categories expenses settings now
  decide (s.totalActualBudget < s.totalExpenses) && decide (0 < s.totalActualBudget)

/-- The per-row percentage computed in `ExpensesTab`:
`limit > 0 ? (spent / limit) * 100 : 0` (the `|| 0` guards on `spent` and
`limit` are identities on rationals). -/
def percentage (r : Row) : ℚ :=
  if 0 < r.budgetLimit then r.value / r.budgetLimit * 100 else 0

/-! ## Historical Comparison Builder (`ExpenseCycleBarChart`) -/

/-- Abbreviated en-locale month name, as produced by
`toLocaleString('default', \x7b month: 'short' \x7d)` (month 0-based). -/
def monthShort (m : Int) : String :=
  if m = 0 then "Jan" else if m = 1 then "Feb" else if m = 2 then "Mar"
  else if m = 3 then "Apr" else if m = 4 then "May" else if m = 5 then "Jun"
  else if m = 6 then "Jul" else if m = 7 then "Aug" else if m = 8 then "Sep"
  else if m = 9 then "Oct" else if m = 10 then "Nov" else "Dec"

/-- Window `i`'s end date in the trend loop:
`const endDate = new Date(now.getFullYear(), now.getMonth(), now.getDate());`
`endDate.setMonth(now.getMonth() - (i * cycleMonths));`. -/
def trendEndDate (now : JDate) (cycleMonths : Int) (i : ℕ) : JDate :=
  jsSetMonth (jsDate3 now.year now.month now.day) (now.month - i * cycleMonths)

/-- Window `i`'s start date in the trend loop:
`const startDate = new Date(now.getFullYear(), now.getMonth(), 1);`
`startDate.setMonth(now.getMonth() - ((i + 1) * cycleMonths) + 1);`. -/
def trendStartDate (now : JDate) (cycleMonths : Int) (i : ℕ) : JDate :=
  jsSetMonth (jsDate3 now.year now.month 1) (now.month - ((i + 1) * cycleMonths) + 1)

/-- Window `i`'s label: `'Current'` for `i = 0`, otherwise the
`labelStart`/`labelEnd` month span string (en locale, with the source's
`.slice(2)` applied to the end part). -/
def trendLabel (now : JDate) (cycleMonths : Int) (i : ℕ) : String :=
  if i = 0 then "Current"
  else
    let sd := trendStartDate now cycleMonths i
    let ed := trendEndDate now cycleMonths i
    let labelStart := jsDate3 sd.year sd.month 1
    let labelEnd := jsDate3 ed.year (ed.month + 1) 0
    monthShort labelStart.month ++ "-" ++
      String.drop (monthShort labelEnd.month ++ " " ++ toString labelEnd.year) 2

/-- One element of the trend series (`data.push(...)` in the loop):
`\x7b name: label, Expenses: totalExpense, isCurrent: i === 0 \x7d`. -/
structure TrendEntry where
  name : String
  Expenses : ℚ
  isCurrent : Bool
deriving DecidableEq, Repr

/-- One iteration of the trend loop: filter the expenses into the closed
window `[startDate, endDate]` and sum their amounts. -/
def trendEntry (expenses : List Tx) (cycleMonths : Int) (now : JDate) (i : ℕ) : TrendEntry :=
  let startDate := trendStartDate now cycleMonths i
  let endDate := trendEndDate now cycleMonths i
  let cycleExpenses := expenses.filter (fun exp =>
    exp.type == "expense" && dateLe startDate exp.timestamp && dateLe exp.timestamp endDate)
  { name := trendLabel now cycleMonths i
    Expenses := cycleExpenses.foldl (fun sum exp => sum + exp.amount) 0
    isCurrent := i == 0 }

/-- The `cycleData` memo of `ExpenseCycleBarChart`:
`if (expenses.length === 0 || cycleMonths === 0) return [];` and otherwise
the five windows (`numCycles = 5`), reversed so that the oldest is first. -/
def cycleData (expenses : List Tx) (cycleMonths : Int) (now : JDate) : List TrendEntry :=
  if expenses.length = 0 ∨ cycleMonths = 0 then []
  else ((List.range 5).map (trendEntry expenses cycleMonths now)).reverse

/-! ## Concrete fixtures (spec §8 scenarios) -/

/-- The Groceries category of the spec scenario: `baseLimit = 200`, monthly. -/
def groceriesCat : Category :=
  ⟨"cat-groceries", "Groceries", 200, "monthly", some "#4CAF50", some "Tag"⟩

/-- A fixed wall-clock instant: 15 June 2025, 12:30. -/
def demoNow : JDate := ⟨2025, 5, 15, 12, 30⟩

/-- Settings with `cycleMonths = 1`. -/
def demoSettings : SettingsRec := ⟨"USD", 1⟩

/-- Expense of 50 on Groceries, dated now. -/
def txGroceries50 : Tx :=
  ⟨"t1", 50, "expense", "cat-groceries", "Card", ⟨2025, 5, 15, 10, 0⟩⟩

/-- Expense of 30 on Groceries, dated now. -/
def txGroceries30 : Tx :=
  ⟨"t2", 30, "expense", "cat-groceries", "Cash", ⟨2025, 5, 15, 11, 0⟩⟩

/-- An expense of 40 whose `categoryId` matches no existing category. -/
def txGhost40 : Tx :=
  ⟨"t3", 40, "expense", "ghost", "Card", ⟨2025, 5, 15, 9, 0⟩⟩

/-- A legacy raw category record: no `baseLimit`, deprecated
`budgetLimit = 75`, no `baseFrequency`. -/
def legacyRawCat : RawCategory :=
  ⟨"raw1", "Legacy", none, some 75, none, some "#673AB7", some "Tag"⟩

end YAET

namespace YAET

/-- C1: `calculateCycleBudget` equals the piecewise reference definition
from the spec for every `baseLimit` (including absent / `NaN`, coerced to
`0`), every frequency string (unknown ones treated as `monthly`) and every
cycle length, and its result is never negative (it is a total function, so
it never fails). -/
theorem c1_calculateCycleBudget_matches_spec_and_nonneg
    (baseLimit : Option ℚ) (baseFrequency : String) (cycleMonths : ℕ) :
    calculateCycleBudget baseLimit baseFrequency cycleMonths =
        cycleAmountSpec baseLimit baseFrequency cycleMonths ∧
      0 ≤ calculateCycleBudget baseLimit baseFrequency cycleMonths := by
  constructor
  · unfold calculateCycleBudget cycleAmountSpec
    by_cases h : orZero baseLimit ≤ 0
    · simp [h]
    · by_cases hd : baseFrequency = "daily" <;>
        by_cases hm : baseFrequency = "monthly" <;>
          by_cases hb : baseFrequency = "bimonthly" <;>
            simp [h, hd, hm, hb, AVG_DAYS_PER_MONTH]
  · unfold calculateCycleBudget
    by_cases h : orZero baseLimit ≤ 0
    · simp [h]
    · have hpos : 0 < orZero baseLimit := lt_of_not_ge h
      have h30 : (0 : ℚ) < AVG_DAYS_PER_MONTH := by norm_num [AVG_DAYS_PER_MONTH]
      have hcm : (0 : ℚ) ≤ (cycleMonths : ℚ) := by positivity
      simp only [if_neg h]
      split <;> positivity

/-! ### Date arithmetic lemmas -/

theorem daysInMonth_ge (y m : Int) : 28 ≤ daysInMonth y m := by
  unfold daysInMonth
  split <;> (split <;> norm_num)

theorem normDateTime_of_le (y m d hh mm : Int) (h1 : 1 ≤ d)
    (h2 : d ≤ daysInMonth ((y * 12 + m) / 12) ((y * 12 + m) % 12)) :
    normDateTime y m d hh mm = ⟨(y * 12 + m) / 12, (y * 12 + m) % 12, d, hh, mm⟩ := by
  unfold normDateTime
  rw [if_neg (by omega), if_neg (by omega)]

theorem normDateTime_day1 (y m hh mm : Int) :
    normDateTime y m 1 hh mm = ⟨(y * 12 + m) / 12, (y * 12 + m) % 12, 1, hh, mm⟩ :=
  normDateTime_of_le y m 1 hh mm le_rfl
    (le_trans (by norm_num) (daysInMonth_ge ((y * 12 + m) / 12) ((y * 12 + m) % 12)))

theorem jsDate3_of_valid (y m d : Int) (hm0 : 0 ≤ m) (hm1 : m < 12)
    (hd1 : 1 ≤ d) (hd2 : d ≤ daysInMonth y m) :
    jsDate3 y m d = ⟨y, m, d, 0, 0⟩ := by
  have e1 : (y * 12 + m) / 12 = y := by omega
  have e2 : (y * 12 + m) % 12 = m := by omega
  rw [jsDate3, normDateTime_of_le y m d 0 0 hd1 (by rw [e1, e2]; exact hd2), e1, e2]

theorem monthIdx_normDateTime (y m d hh mm : Int) (h1 : 1 ≤ d) :
    monthIdx (normDateTime y m d hh mm) = y * 12 + m ∨
      monthIdx (normDateTime y m d hh mm) = y * 12 + m + 1 := by
  unfold normDateTime monthIdx
  dsimp only
  split
  · omega
  · split <;> (dsimp only; omega)

theorem stepBackMonths_skips (now : JDate) (cycleMonths : Int) :
    stepBackMonths (truncToMonthStart now) (cycleMonths - 1) =
      ⟨(now.year * 12 + now.month - (cycleMonths - 1)) / 12,
        (now.year * 12 + now.month - (cycleMonths - 1)) % 12, 1, 0, 0⟩ := by
  unfold stepBackMonths truncToMonthStart monthIdx
  rfl

/-- C3: For every valid `now` and every `cycleMonths >= 1`,
`startOfCycle` equals the spec's reference: the first day of `now`'s month
at midnight, stepped back `(cycleMonths - 1)` whole calendar months; in
particular the result is always the 1st of some month at midnight. -/
theorem c3_startOfCycle_matches_spec (now : JDate) (cycleMonths : Int)
    (hv : ValidDate now) (_hc : 1 ≤ cycleMonths) :
    startOfCycle now cycleMonths =
        stepBackMonths (truncToMonthStart now) (cycleMonths - 1) ∧
      (startOfCycle now cycleMonths).day = 1 ∧
      (startOfCycle now cycleMonths).hour = 0 ∧
      (startOfCycle now cycleMonths).minute = 0 ∧
      0 ≤ (startOfCycle now cycleMonths).month ∧
      (startOfCycle now cycleMonths).month < 12 := by
  obtain ⟨hm0, hm1, hd1, hd2, -⟩ := hv
  have hbase : jsDate3 now.year now.month 1 = ⟨now.year, now.month, 1, 0, 0⟩ :=
    jsDate3_of_valid now.year now.month 1 hm0 hm1 le_rfl
      (le_trans (by norm_num) (daysInMonth_ge now.year now.month))
  have hmain : startOfCycle now cycleMonths =
      ⟨(now.year * 12 + now.month - (cycleMonths - 1)) / 12,
        (now.year * 12 + now.month - (cycleMonths - 1)) % 12, 1, 0, 0⟩ := by
    set T : Int := now.year * 12 + now.month - (cycleMonths - 1) with hT
    rw [startOfCycle, hbase, jsSetMonth]
    simp only
    rw [normDateTime_day1, jsSetDate]
    simp only
    rw [normDateTime_day1]
    have e1 : now.year * 12 + (now.month - (cycleMonths - 1)) = T := by omega
    rw [e1]
    have e2 : T / 12 * 12 + T % 12 = T := by omega
    rw [e2]
  refine ⟨?_, ?_, ?_, ?_, ?_, ?_⟩
  · rw [hmain, stepBackMonths_skips]
  · rw [hmain]
  · rw [hmain]
  · rw [hmain]
  · rw [hmain]; simp only; omega
  · rw [hmain]; simp only; omega

/-- Concrete instantiation of C3 at `now` = 15 Jan 2025, 03:04, with a
two-month cycle. -/
theorem c3_startOfCycle_matches_spec_witness :
    startOfCycle ⟨2025, 0, 15, 3, 4⟩ 2 =
        stepBackMonths (truncToMonthStart ⟨2025, 0, 15, 3, 4⟩) (2 - 1) ∧
      (startOfCycle ⟨2025, 0, 15, 3, 4⟩ 2).day = 1 ∧
      (startOfCycle ⟨2025, 0, 15, 3, 4⟩ 2).hour = 0 ∧
      (startOfCycle ⟨2025, 0, 15, 3, 4⟩ 2).minute = 0 ∧
      0 ≤ (startOfCycle ⟨2025, 0, 15, 3, 4⟩ 2).month ∧
      (startOfCycle ⟨2025, 0, 15, 3, 4⟩ 2).month < 12 :=
  c3_startOfCycle_matches_spec ⟨2025, 0, 15, 3, 4⟩ 2 (by decide) (by decide)

/-! ### Aggregation lemmas -/

theorem foldl_add_eq_sum {α : Type} (f : α → ℚ) (l : List α) (a : ℚ) :
    l.foldl (fun s x => s + f x) a = a + (l.map f).sum := by
  induction l generalizing a with
  | nil => simp
  | cons x xs ih => simp [ih, add_assoc]

theorem jsCycleMonths_of_pos (s : SettingsRec) (h : 1 ≤ s.cycleMonths) :
    jsCycleMonths s = s.cycleMonths := by
  unfold jsCycleMonths
  split <;> omega

theorem summary_totalBudgetLimit (categories : List Category) (expenses : List Tx)
    (settings : SettingsRec) (now : JDate) :
    (summary categories expenses settings now).totalBudgetLimit =
      (categories.map (fun cat =>
        calculateCycleBudget (some cat.baseLimit) cat.baseFrequency
          (jsCycleMonths settings))).sum := by
  unfold summary
  dsimp only
  rw [foldl_add_eq_sum, zero_add]

theorem summary_totalExpenses (categories : List Category) (expenses : List Tx)
    (settings : SettingsRec) (now : JDate) :
    (summary categories expenses settings now).totalExpenses =
      ((cycleExpensesOf expenses (currentCycleStartOf settings now)).map Tx.amount).sum := by
  unfold summary
  dsimp only
  rw [foldl_add_eq_sum, zero_add]

theorem summary_totalActualBudget (categories : List Category) (expenses : List Tx)
    (settings : SettingsRec) (now : JDate) :
    (summary categories expenses settings now).totalActualBudget =
      ((cycleBudgetsOf expenses (currentCycleStartOf settings now)).map Tx.amount).sum := by
  unfold summary
  dsimp only
  rw [foldl_add_eq_sum, zero_add]

theorem summary_remaining (categories : List Category) (expenses : List Tx)
    (settings : SettingsRec) (now : JDate) :
    (summary categories expenses settings now).remaining =
      (summary categories expenses settings now).totalBudgetLimit -
        (summary categories expenses settings now).totalExpenses := by
  unfold summary
  dsimp only

theorem summary_chartData (categories : List Category) (expenses : List Tx)
    (settings : SettingsRec) (now : JDate) :
    (summary categories expenses settings now).chartData =
      chartDataOf categories
        (cycleExpensesOf expenses (currentCycleStartOf settings now))
        (jsCycleMonths settings) := by
  unfold summary
  dsimp only

theorem summary_expenseByCategory (categories : List Category) (expenses : List Tx)
    (settings : SettingsRec) (now : JDate) :
    (summary categories expenses settings now).expenseByCategory =
      expenseByCategoryOf (cycleExpensesOf expenses (currentCycleStartOf settings now)) := by
  unfold summary
  dsimp only

/-- C6: The current-cycle selection keeps exactly the transactions with
`timestamp >= start`, with no upper bound on the timestamp, for both the
expense partition and the income (`budget`-type) partition. -/
theorem c6_current_cycle_filter_open_ended (expenses : List Tx) (start : JDate) (t : Tx) :
    (t ∈ cycleExpensesOf expenses start ↔
        t ∈ expenses ∧ t.type = "expense" ∧ dateLe start t.timestamp = true) ∧
      (t ∈ cycleBudgetsOf expenses start ↔
        t ∈ expenses ∧ t.type = "budget" ∧ dateLe start t.timestamp = true) := by
  unfold cycleExpensesOf cycleBudgetsOf filterData
  constructor <;> simp [List.mem_filter, and_assoc, and_comm]

/-- C2: `summary` produces `totalBudgetLimit` as the sum of per-category
cycle budgets at `settings.cycleMonths`, `totalExpenses` as the sum of the
amounts of the current-cycle expense transactions, and `remaining` as their
difference; the spec scenario (Groceries 200 monthly, cycleMonths 1, two
expenses of 50 and 30 dated now) yields 200 / 80 / 120. -/
theorem c2_summary_totals (categories : List Category) (expenses : List Tx)
    (settings : SettingsRec) (now : JDate) (h : 1 ≤ settings.cycleMonths) :
    ((summary categories expenses settings now).totalBudgetLimit =
        (categories.map (fun cat =>
          calculateCycleBudget (some cat.baseLimit) cat.baseFrequency
            settings.cycleMonths)).sum ∧
      (summary categories expenses settings now).totalExpenses =
        ((cycleExpensesOf expenses (currentCycleStartOf settings now)).map Tx.amount).sum ∧
      (summary categories expenses settings now).remaining =
        (summary categories expenses settings now).totalBudgetLimit -
          (summary categories expenses settings now).totalExpenses) ∧
      ((summary [groceriesCat] [txGroceries50, txGroceries30]
          demoSettings demoNow).totalBudgetLimit = 200 ∧
        (summary [groceriesCat] [txGroceries50, txGroceries30]
          demoSettings demoNow).totalExpenses = 80 ∧
        (summary [groceriesCat] [txGroceries50, txGroceries30]
          demoSettings demoNow).remaining = 120) := by
  refine ⟨⟨?_, summary_totalExpenses _ _ _ _, summary_remaining _ _ _ _⟩, ?_, ?_, ?_⟩
  · rw [summary_totalBudgetLimit, jsCycleMonths_of_pos settings h]
  · rw [summary_totalBudgetLimit]
    norm_num [groceriesCat, demoSettings, jsCycleMonths, calculateCycleBudget, orZero]
    exact fun hco => absurd hco (by decide)
  · rw [summary_totalExpenses]
    have hstart : currentCycleStartOf demoSettings demoNow = ⟨2025, 5, 1, 0, 0⟩ := by decide
    rw [hstart]
    norm_num [cycleExpensesOf, filterData, dateLe, txGroceries50, txGroceries30]
  · rw [summary_remaining, summary_totalBudgetLimit, summary_totalExpenses]
    have hstart : currentCycleStartOf demoSettings demoNow = ⟨2025, 5, 1, 0, 0⟩ := by decide
    rw [hstart]
    norm_num [groceriesCat, demoSettings, jsCycleMonths, calculateCycleBudget, orZero,
      cycleExpensesOf, filterData, dateLe, txGroceries50, txGroceries30]
    rw [if_neg (by decide)]
    norm_num

/-- Instantiation of C2 at the spec scenario inputs. -/
theorem c2_summary_totals_witness :
    (summary [groceriesCat] [txGroceries50, txGroceries30]
        demoSettings demoNow).totalBudgetLimit =
      ([groceriesCat].map (fun cat =>
        calculateCycleBudget (some cat.baseLimit) cat.baseFrequency
          demoSettings.cycleMonths)).sum :=
  (c2_summary_totals [groceriesCat] [txGroceries50, txGroceries30]
    demoSettings demoNow (by decide)).1.1

/-- C7: The summary's over-actual-income flag is true iff
`totalExpenses > totalIncome` and `totalIncome > 0`; with no recorded income
the flag is false even when expenses are positive. -/
theorem c7_isOverActualBudget_iff (categories : List Category) (expenses : List Tx)
    (settings : SettingsRec) (now : JDate) :
    (isOverActualBudget categories expenses settings now = true ↔
        (summary categories expenses settings now).totalActualBudget <
            (summary categories expenses settings now).totalExpenses ∧
          0 < (summary categories expenses settings now).totalActualBudget) ∧
      ((summary categories expenses settings now).totalActualBudget = 0 →
        isOverActualBudget categories expenses settings now = false) := by
  constructor
  · unfold isOverActualBudget
    simp [Bool.and_eq_true, decide_eq_true_iff]
  · intro h0
    unfold isOverActualBudget
    simp [h0]

/-- Instantiation of C7: one expense of 50, no income recorded — the flag
stays false. -/
theorem c7_isOverActualBudget_iff_witness :
    isOverActualBudget [groceriesCat] [txGroceries50] demoSettings demoNow = false :=
  (c7_isOverActualBudget_iff [groceriesCat] [txGroceries50] demoSettings demoNow).2
    (by decide)

/-- C9: The category sanitization step falls back from the deprecated
`budgetLimit` field when `baseLimit` is absent (coercing to 0 when both are
missing or non-numeric), and substitutes `'monthly'` for a missing
`baseFrequency`. -/
theorem c9_sanitize_legacy_fallback (c : RawCategory) :
    (c.baseLimit = none →
        (sanitizeCategory c).baseLimit = orNum c.budgetLimit 0) ∧
      (c.baseLimit = none → c.budgetLimit = none →
        (sanitizeCategory c).baseLimit = 0) ∧
      (c.baseFrequency = none →
        (sanitizeCategory c).baseFrequency = "monthly") := by
  refine ⟨fun h1 => ?_, fun h1 h2 => ?_, fun h3 => ?_⟩
  · simp [sanitizeCategory, orNum, h1]
  · simp [sanitizeCategory, orNum, h1, h2]
  · simp [sanitizeCategory, orStr, h3]

/-- Instantiation of C9 at a legacy record with `budgetLimit = 75` and no
`baseLimit` / `baseFrequency`. -/
theorem c9_sanitize_legacy_fallback_witness :
    (sanitizeCategory legacyRawCat).baseLimit = orNum legacyRawCat.budgetLimit 0 ∧
      (sanitizeCategory legacyRawCat).baseFrequency = "monthly" :=
  ⟨(c9_sanitize_legacy_fallback legacyRawCat).1 rfl,
    (c9_sanitize_legacy_fallback legacyRawCat).2.2 rfl⟩

/-- C8: The per-category rows of the summary are exactly the rows built
from the categories (in order, with their index) whose spend is positive or
whose computed cycle limit is positive, and a row's percentage is
`spent / cycleLimit * 100` when the cycle limit is positive and `0`
otherwise. -/
theorem c8_chartData_filter_and_percentage (categories : List Category)
    (expenses : List Tx) (settings : SettingsRec) (now : JDate) (r : Row) :
    (r ∈ (summary categories expenses settings now).chartData ↔
        (∃ i cat, categories[i]? = some cat ∧
            r = mkRow (jsCycleMonths settings)
              (expenseByCategoryOf
                (cycleExpensesOf expenses (currentCycleStartOf settings now))) i cat) ∧
          (0 < r.value ∨ 0 < r.budgetLimit)) ∧
      (∀ i cat, categories[i]? = some cat →
        percentage (mkRow (jsCycleMonths settings)
            (expenseByCategoryOf
              (cycleExpensesOf expenses (currentCycleStartOf settings now))) i cat) =
          if 0 < calculateCycleBudget (some cat.baseLimit) cat.baseFrequency
              (jsCycleMonths settings) then
            expenseByCategoryOf
                (cycleExpensesOf expenses (currentCycleStartOf settings now)) cat.id /
              calculateCycleBudget (some cat.baseLimit) cat.baseFrequency
                (jsCycleMonths settings) * 100
          else 0) := by
  constructor
  · rw [summary_chartData, chartDataOf, List.mem_filter, List.mem_map]
    constructor
    · rintro ⟨⟨⟨i, cat⟩, hmem, rfl⟩, hp⟩
      refine ⟨⟨i, cat, List.mk_mem_enum_iff_getElem?.1 hmem, rfl⟩, ?_⟩
      simpa [Bool.or_eq_true, decide_eq_true_iff] using hp
    · rintro ⟨⟨i, cat, hget, rfl⟩, hor⟩
      refine ⟨⟨(i, cat), List.mk_mem_enum_iff_getElem?.2 hget, rfl⟩, ?_⟩
      simpa [Bool.or_eq_true, decide_eq_true_iff] using hor
  · intro i cat _
    simp [percentage, mkRow]

/-- Instantiation of C8 at the spec scenario: the Groceries row's percentage
formula at index 0. -/
theorem c8_chartData_filter_and_percentage_witness :
    percentage (mkRow (jsCycleMonths demoSettings)
        (expenseByCategoryOf
          (cycleExpensesOf [txGroceries50, txGroceries30]
            (currentCycleStartOf demoSettings demoNow))) 0 groceriesCat) =
      if 0 < calculateCycleBudget (some groceriesCat.baseLimit)
          groceriesCat.baseFrequency (jsCycleMonths demoSettings) then
        expenseByCategoryOf
            (cycleExpensesOf [txGroceries50, txGroceries30]
              (currentCycleStartOf demoSettings demoNow)) groceriesCat.id /
          calculateCycleBudget (some groceriesCat.baseLimit)
            groceriesCat.baseFrequency (jsCycleMonths demoSettings) * 100
      else 0 :=
  (c8_chartData_filter_and_percentage [groceriesCat]
    [txGroceries50, txGroceries30] demoSettings demoNow
    (mkRow (jsCycleMonths demoSettings)
      (expenseByCategoryOf
        (cycleExpensesOf [txGroceries50, txGroceries30]
          (currentCycleStartOf demoSettings demoNow))) 0 groceriesCat)).2
    0 groceriesCat rfl

/-! ### Lemmas for C10 -/

theorem sum_map_add {α : Type} (f g : α → ℚ) (l : List α) :
    (l.map (fun x => f x + g x)).sum = (l.map f).sum + (l.map g).sum := by
  induction l with
  | nil => simp
  | cons x xs ih => simp only [List.map_cons, List.sum_cons, ih]; ring

theorem sum_map_filter_le {α : Type} (p : α → Bool) (f : α → ℚ) (l : List α)
    (h : ∀ a ∈ l, 0 ≤ f a) : ((l.filter p).map f).sum ≤ (l.map f).sum := by
  induction l with
  | nil => simp
  | cons x xs ih =>
    have hx := h x (List.mem_cons_self x xs)
    have ih2 := ih (fun a ha => h a (List.mem_cons_of_mem x ha))
    rw [List.filter_cons]
    by_cases hp : p x = true
    · rw [if_pos hp]
      simp only [List.map_cons, List.sum_cons]
      exact add_le_add_left ih2 (f x)
    · rw [if_neg hp]
      simp only [List.map_cons, List.sum_cons]
      linarith

theorem sum_map_ite_eq_of_nodup (x : String) (a : ℚ) (keys : List String)
    (hnd : keys.Nodup) :
    (keys.map (fun k => if x = k then a else 0)).sum = if x ∈ keys then a else 0 := by
  induction keys with
  | nil => simp
  | cons k ks ih =>
    obtain ⟨hk, hks⟩ := List.nodup_cons.1 hnd
    by_cases hxk : x = k
    · subst hxk
      have hnot : x ∉ ks := hk
      simp [ih hks, hnot]
    · simp [ih hks, hxk]

theorem expenseByCategoryOf_cons (t : Tx) (rest : List Tx) (k : String) :
    expenseByCategoryOf (t :: rest) k =
      (if t.categoryId = k then t.amount else 0) + expenseByCategoryOf rest k := by
  unfold expenseByCategoryOf
  rw [List.filter_cons]
  by_cases h : t.categoryId = k
  · simp [h]
  · simp [h]

theorem expenseByCategoryOf_nonneg (txs : List Tx) (k : String)
    (h : ∀ t ∈ txs, 0 ≤ t.amount) : 0 ≤ expenseByCategoryOf txs k := by
  unfold expenseByCategoryOf
  apply List.sum_nonneg
  intro x hx
  obtain ⟨t, ht, rfl⟩ := List.mem_map.1 hx
  exact h t (List.mem_of_mem_filter ht)

theorem sum_buckets_le (keys : List String) (txs : List Tx) (hnd : keys.Nodup)
    (hamt : ∀ t ∈ txs, 0 ≤ t.amount) :
    (keys.map (fun k => expenseByCategoryOf txs k)).sum ≤ (txs.map Tx.amount).sum := by
  induction txs with
  | nil =>
    simp [expenseByCategoryOf]
  | cons t rest ih =>
    have h0 := hamt t (List.mem_cons_self t rest)
    have ihr := ih (fun u hu => hamt u (List.mem_cons_of_mem t hu))
    calc (keys.map (fun k => expenseByCategoryOf (t :: rest) k)).sum
        = (keys.map (fun k =>
            (if t.categoryId = k then t.amount else 0) + expenseByCategoryOf rest k)).sum := by
          simp only [expenseByCategoryOf_cons]
      _ = (keys.map (fun k => if t.categoryId = k then t.amount else 0)).sum +
            (keys.map (fun k => expenseByCategoryOf rest k)).sum :=
          sum_map_add _ _ keys
      _ ≤ t.amount + (rest.map Tx.amount).sum := by
          rw [sum_map_ite_eq_of_nodup t.categoryId t.amount keys hnd]
          have hle : (if t.categoryId ∈ keys then t.amount else 0) ≤ t.amount := by
            split <;> simp [h0]
          exact add_le_add hle ihr
      _ = ((t :: rest).map Tx.amount).sum := by simp

theorem mem_cycleExpensesOf_amount_nonneg (expenses : List Tx) (start : JDate)
    (h : ∀ t ∈ expenses, 0 ≤ t.amount) :
    ∀ t ∈ cycleExpensesOf expenses start, 0 ≤ t.amount := by
  intro t ht
  unfold cycleExpensesOf filterData at ht
  exact h t (List.mem_of_mem_filter (List.mem_of_mem_filter ht))

/-- C10: An expense whose `categoryId` matches no category still counts
in full towards `totalExpenses` and `expenseByCategory`, but produces no
per-category row; hence (with distinct category ids and nonnegative
amounts, the data-model invariants) the sum of the rows' spent values is at
most `totalExpenses`, and strictly less is possible (concrete case: one
orphaned expense of 40). -/
theorem c10_row_sum_le_totalExpenses :
    (∀ (categories : List Category) (expenses : List Tx)
        (settings : SettingsRec) (now : JDate),
      (categories.map Category.id).Nodup →
      (∀ t ∈ expenses, 0 ≤ t.amount) →
      ((summary categories expenses settings now).chartData.map Row.value).sum ≤
        (summary categories expenses settings now).totalExpenses) ∧
    (∀ (categories : List Category) (expenses : List Tx)
        (settings : SettingsRec) (now : JDate) (cid : String),
      (∀ c ∈ categories, c.id ≠ cid) →
      ∀ r ∈ (summary categories expenses settings now).chartData, r.id ≠ cid) ∧
    ((summary [groceriesCat] [txGhost40] demoSettings demoNow).totalExpenses = 40 ∧
      (summary [groceriesCat] [txGhost40] demoSettings demoNow).expenseByCategory
        "ghost" = 40 ∧
      ((summary [groceriesCat] [txGhost40] demoSettings
          demoNow).chartData.map Row.value).sum <
        (summary [groceriesCat] [txGhost40] demoSettings demoNow).totalExpenses) := by
  have hstart : currentCycleStartOf demoSettings demoNow = ⟨2025, 5, 1, 0, 0⟩ := by decide
  refine ⟨?_, ?_, ?_, ?_, ?_⟩
  · intro categories expenses settings now hnd hamt
    rw [summary_chartData, summary_totalExpenses, chartDataOf]
    have hce0 : ∀ t ∈ cycleExpensesOf expenses (currentCycleStartOf settings now),
        0 ≤ t.amount := mem_cycleExpensesOf_amount_nonneg _ _ hamt
    have step1 := sum_map_filter_le
      (fun item => decide (0 < item.value) || decide (0 < item.budgetLimit)) Row.value
      (categories.enum.map (fun p =>
        mkRow (jsCycleMonths settings)
          (expenseByCategoryOf (cycleExpensesOf expenses (currentCycleStartOf settings now)))
          p.1 p.2))
      (by
        intro r hr
        obtain ⟨⟨i, cat⟩, _, rfl⟩ := List.mem_map.1 hr
        exact expenseByCategoryOf_nonneg _ _ hce0)
    have step2 : ((categories.enum.map (fun p =>
        mkRow (jsCycleMonths settings)
          (expenseByCategoryOf (cycleExpensesOf expenses (currentCycleStartOf settings now)))
          p.1 p.2)).map Row.value) =
        (categories.map Category.id).map (fun k =>
          expenseByCategoryOf (cycleExpensesOf expenses (currentCycleStartOf settings now)) k) := by
      rw [List.map_map, List.map_map]
      have hfun : (Row.value ∘ fun p : ℕ × Category =>
          mkRow (jsCycleMonths settings)
            (expenseByCategoryOf (cycleExpensesOf expenses (currentCycleStartOf settings now)))
            p.1 p.2) =
          ((fun k => expenseByCategoryOf
            (cycleExpensesOf expenses (currentCycleStartOf settings now)) k) ∘
              Category.id) ∘ Prod.snd := rfl
      rw [hfun, ← List.map_map, List.enum_map_snd]
    have step3 := sum_buckets_le (categories.map Category.id)
      (cycleExpensesOf expenses (currentCycleStartOf settings now)) hnd hce0
    calc (((categories.enum.map (fun p =>
            mkRow (jsCycleMonths settings)
              (expenseByCategoryOf (cycleExpensesOf expenses (currentCycleStartOf settings now)))
              p.1 p.2)).filter
          (fun item => decide (0 < item.value) || decide (0 < item.budgetLimit))).map
          Row.value).sum
        ≤ ((categories.enum.map (fun p =>
            mkRow (jsCycleMonths settings)
              (expenseByCategoryOf (cycleExpensesOf expenses (currentCycleStartOf settings now)))
              p.1 p.2)).map Row.value).sum := step1
      _ = ((categories.map Category.id).map (fun k =>
            expenseByCategoryOf (cycleExpensesOf expenses (currentCycleStartOf settings now))
              k)).sum := by rw [step2]
      _ ≤ ((cycleExpensesOf expenses (currentCycleStartOf settings now)).map Tx.amount).sum :=
          step3
  · intro categories expenses settings now cid hno r hr
    rw [summary_chartData, chartDataOf, List.mem_filter, List.mem_map] at hr
    obtain ⟨⟨⟨i, cat⟩, hmem, rfl⟩, -⟩ := hr
    have hcat : cat ∈ categories :=
      List.getElem?_mem (List.mk_mem_enum_iff_getElem?.1 hmem)
    simpa [mkRow] using hno cat hcat
  · rw [summary_totalExpenses, hstart]
    norm_num [cycleExpensesOf, filterData, dateLe, txGhost40]
  · rw [summary_expenseByCategory, hstart]
    norm_num [expenseByCategoryOf, cycleExpensesOf, filterData, dateLe, txGhost40]
  · rw [summary_chartData, summary_totalExpenses, hstart]
    norm_num [chartDataOf, mkRow, expenseByCategoryOf, cycleExpensesOf, filterData,
      dateLe, txGhost40, groceriesCat, COLORS, calculateCycleBudget, orZero,
      jsCycleMonths, demoSettings, List.enum, List.enumFrom, List.filter_cons]
    rw [if_neg (show ¬("ghost" = "cat-groceries") by decide),
      if_neg (show ¬("monthly" = "daily") by decide)]
    norm_num

/-- Instantiation of C10's inequality at the orphaned-expense fixture. -/
theorem c10_row_sum_le_totalExpenses_witness :
    ((summary [groceriesCat] [txGhost40] demoSettings
        demoNow).chartData.map Row.value).sum ≤
      (summary [groceriesCat] [txGhost40] demoSettings demoNow).totalExpenses :=
  c10_row_sum_le_totalExpenses.1 [groceriesCat] [txGhost40] demoSettings demoNow
    (by decide) (by decide)

/-! ### Trend chart lemmas (C4, C5) -/

theorem cycleData_of_nonempty (expenses : List Tx) (cycleMonths : Int) (now : JDate)
    (hne : expenses ≠ []) (hc : cycleMonths ≠ 0) :
    cycleData expenses cycleMonths now =
      ((List.range 5).map (trendEntry expenses cycleMonths now)).reverse := by
  unfold cycleData
  rw [if_neg]
  simp [List.length_eq_zero, hne, hc]

/-- C4 counterexample: The claim says the series is empty whenever the
transaction list is empty or `cycleMonths <= 0`; but at `cycleMonths = -1`
(which is `<= 0`) with a non-empty list the code produces a 5-entry series
(its guard tests `cycleMonths === 0`, not `<= 0`). -/
theorem c4_negative_cycleMonths_not_empty :
    ((-1 : Int) ≤ 0) ∧ ([txGhost40] : List Tx) ≠ [] ∧
      (cycleData [txGhost40] (-1) demoNow).length = 5 :=
  ⟨by decide, by simp, rfl⟩

/-- C4 amended: The cycle-comparison series is empty exactly when the
transaction list is empty or `cycleMonths = 0`; for any other `cycleMonths`
(negative included) and a non-empty list it is non-empty.  The builder is a
total function, so the degenerate cases raise no error. -/
theorem c4_empty_iff (expenses : List Tx) (cycleMonths : Int) (now : JDate) :
    cycleData expenses cycleMonths now = [] ↔
      expenses = [] ∨ cycleMonths = 0 := by
  constructor
  · intro h
    by_cases hne : expenses = []
    · exact Or.inl hne
    · by_cases hc : cycleMonths = 0
      · exact Or.inr hc
      · rw [cycleData_of_nonempty expenses cycleMonths now hne hc] at h
        simp at h
  · intro h
    unfold cycleData
    rw [if_pos]
    rcases h with h | h
    · exact Or.inl (by simp [h])
    · exact Or.inr h

theorem trendStartDate_eq (now : JDate) (cycleMonths : Int) (i : ℕ)
    (hm0 : 0 ≤ now.month) (hm1 : now.month < 12) :
    trendStartDate now cycleMonths i =
      ⟨(now.year * 12 + now.month - ((i : Int) + 1) * cycleMonths + 1) / 12,
        (now.year * 12 + now.month - ((i : Int) + 1) * cycleMonths + 1) % 12, 1, 0, 0⟩ := by
  unfold trendStartDate
  rw [jsDate3_of_valid now.year now.month 1 hm0 hm1 le_rfl
    (le_trans (by norm_num) (daysInMonth_ge now.year now.month))]
  unfold jsSetMonth
  dsimp only
  rw [normDateTime_day1]
  have e : now.year * 12 + (now.month - (((i : Int) + 1) * cycleMonths) + 1) =
      now.year * 12 + now.month - ((i : Int) + 1) * cycleMonths + 1 := by ring
  rw [e]

theorem monthIdx_trendStartDate (now : JDate) (cycleMonths : Int) (i : ℕ)
    (hm0 : 0 ≤ now.month) (hm1 : now.month < 12) :
    monthIdx (trendStartDate now cycleMonths i) =
      now.year * 12 + now.month - ((i : Int) + 1) * cycleMonths + 1 := by
  rw [trendStartDate_eq now cycleMonths i hm0 hm1]
  unfold monthIdx
  dsimp only
  omega

/-- C5: With `count = 5`, `cycleMonths >= 1`, a valid `now` and a
non-empty transaction list: the series has exactly 5 entries; its `j`-th
displayed entry is window `4 - j` (so windows are ordered oldest to newest,
their start months strictly increasing); the last entry is window 0,
labelled `"Current"`; window `i`'s `endDate` is `now` shifted back
`i * cycleMonths` calendar months and its `startDate` is the first of
`now`'s month stepped back `(i + 1) * cycleMonths - 1` months; and
consecutive windows' month spans have no gap: the older window's end month
is the newer window's start month or the month right before it. -/
theorem c5_historicalCycles_structure (now : JDate) (cycleMonths : Int)
    (expenses : List Tx) (hv : ValidDate now) (hc : 1 ≤ cycleMonths)
    (hne : expenses ≠ []) :
    (cycleData expenses cycleMonths now).length = 5 ∧
      (∀ j : ℕ, j < 5 → (cycleData expenses cycleMonths now)[j]? =
        some (trendEntry expenses cycleMonths now (4 - j))) ∧
      ((cycleData expenses cycleMonths now).getLast? =
          some (trendEntry expenses cycleMonths now 0) ∧
        (trendEntry expenses cycleMonths now 0).name = "Current" ∧
        (trendEntry expenses cycleMonths now 0).isCurrent = true) ∧
      (∀ i : ℕ,
        trendEndDate now cycleMonths i = shiftBackMonths now ((i : Int) * cycleMonths) ∧
        trendStartDate now cycleMonths i =
          stepBackMonths (truncToMonthStart now) (((i : Int) + 1) * cycleMonths - 1)) ∧
      (∀ i : ℕ,
        monthIdx (trendStartDate now cycleMonths (i + 1)) <
            monthIdx (trendStartDate now cycleMonths i) ∧
          monthIdx (trendStartDate now cycleMonths i) - 1 ≤
            monthIdx (trendEndDate now cycleMonths (i + 1)) ∧
          monthIdx (trendEndDate now cycleMonths (i + 1)) ≤
            monthIdx (trendStartDate now cycleMonths i)) := by
  obtain ⟨hm0, hm1, hd1, hd2, -⟩ := hv
  have hc0 : cycleMonths ≠ 0 := by omega
  have hdata := cycleData_of_nonempty expenses cycleMonths now hne hc0
  have hbase : jsDate3 now.year now.month now.day =
      ⟨now.year, now.month, now.day, 0, 0⟩ :=
    jsDate3_of_valid now.year now.month now.day hm0 hm1 hd1 hd2
  have hend : ∀ i : ℕ, trendEndDate now cycleMonths i =
      normDateTime now.year (now.month - (i : Int) * cycleMonths) now.day 0 0 := by
    intro i
    unfold trendEndDate
    rw [hbase]
    rfl
  refine ⟨?_, ?_, ⟨?_, rfl, rfl⟩, ?_, ?_⟩
  · rw [hdata]; rfl
  · intro j hj
    rw [hdata]
    interval_cases j <;> rfl
  · rw [hdata, List.getLast?_reverse]
    rfl
  · intro i
    constructor
    · rw [hend i]
      unfold shiftBackMonths
      rfl
    · rw [trendStartDate_eq now cycleMonths i hm0 hm1]
      unfold stepBackMonths truncToMonthStart monthIdx
      dsimp only
      have e : now.year * 12 + now.month - (((i : Int) + 1) * cycleMonths - 1) =
          now.year * 12 + now.month - ((i : Int) + 1) * cycleMonths + 1 := by ring
      rw [e]
  · intro i
    have hs0 := monthIdx_trendStartDate now cycleMonths i hm0 hm1
    have hs1 := monthIdx_trendStartDate now cycleMonths (i + 1) hm0 hm1
    have hmono : ((i : Int) + 1 + 1) * cycleMonths = ((i : Int) + 1) * cycleMonths + cycleMonths := by
      ring
    have hme : monthIdx (trendEndDate now cycleMonths (i + 1)) =
          now.year * 12 + (now.month - ((i : Int) + 1) * cycleMonths) ∨
        monthIdx (trendEndDate now cycleMonths (i + 1)) =
          now.year * 12 + (now.month - ((i : Int) + 1) * cycleMonths) + 1 := by
      rw [hend (i + 1)]
      have := monthIdx_normDateTime now.year
        (now.month - ((i : Int) + 1) * cycleMonths) now.day 0 0 hd1
      push_cast
      push_cast at this
      exact this
    push_cast at hs1
    refine ⟨?_, ?_, ?_⟩
    · rw [hs0, hs1]
      have : ((i : Int) + 1 + 1) * cycleMonths - ((i : Int) + 1) * cycleMonths =
          cycleMonths := by ring
      omega
    · rcases hme with h | h <;> rw [h, hs0] <;>
        (have : ((i : Int) + 1) * cycleMonths = ((i : Int) + 1) * cycleMonths := rfl
         omega)
    · rcases hme with h | h <;> rw [h, hs0] <;> omega

/-- Instantiation of C5 at 15 June 2025 with a one-month cycle and a single
transaction: the series length is 5. -/
theorem c5_historicalCycles_structure_witness :
    (cycleData [txGhost40] 1 demoNow).length = 5 :=
  (c5_historicalCycles_structure demoNow 1 [txGhost40] (by decide) (by decide)
    (by simp)).1

end YAET
